import Mathlib

/-
Verification of the range-bounded term-dictionary cursor
(`src/termdict/streamer.rs`: `TermStreamerBuilder` and `TermStreamer`).

Keys are byte strings, embedded as `List Nat`.  The external collaborators
(`TermDictionary`, `TermInfo`, and the fst crate's range-restricted
ascending stream) are not part of the source file; they are modelled from
the spec's stated contract, each marked `Modelled from the spec:`.
-/

namespace TantivyStreamer

/-- A term key: a byte string, embedded as a list of naturals. -/
abbrev Key := List Nat

/-- Strict byte-lexicographic order on keys (shorter list is smaller when
it is a proper prefix). -/
def lexLt : Key → Key → Bool
  | [], [] => false
  | [], _ :: _ => true
  | _ :: _, [] => false
  | a :: as, b :: bs => if a < b then true else if b < a then false else lexLt as bs

/-- Non-strict byte-lexicographic order on keys. -/
def lexLe (a b : Key) : Bool := lexLt a b || a == b

/-- A one-sided range bound, mirroring the fst crate's bound type used by
its stream builder. -/
inductive Bound where
  | unbounded : Bound
  | included : Key → Bound
  | excluded : Key → Bound
deriving DecidableEq

/-- Does a key satisfy a lower-side bound? -/
def lowerOk : Bound → Key → Bool
  | Bound.unbounded, _ => true
  | Bound.included b, k => lexLe b k
  | Bound.excluded b, k => lexLt b k

/-- Does a key satisfy an upper-side bound? -/
def upperOk : Bound → Key → Bool
  | Bound.unbounded, _ => true
  | Bound.included b, k => lexLe k b
  | Bound.excluded b, k => lexLt k b

/-- Modelled from the spec: `TermInfo` is an opaque per-term metadata
record with a well-defined default (zero) value; its actual fields live
outside the provided source, so it is abstracted as a single payload. -/
structure TermInfo where
  payload : Nat
deriving DecidableEq

/-- The default `TermInfo` (the spec's "zero/empty" value). -/
def TermInfo.default : TermInfo := ⟨0⟩

/-- Modelled from the spec: the term dictionary is an immutable sorted map
from byte-string keys to dense zero-based ordinals, with per-term metadata
retrievable by ordinal.  It is embedded as the ordered list of
(key, metadata) entries; the ordinal of an entry is its position. -/
structure TermDictionary where
  entries : List (Key × TermInfo)
deriving DecidableEq

/-- Modelled from the spec: ordinal-to-metadata lookup ("given an ordinal,
return the associated metadata record").  Out-of-range ordinals yield the
default record. -/
def TermDictionary.term_info_from_ord (d : TermDictionary) (ord : Nat) : TermInfo :=
  ((d.entries.get? ord).map Prod.snd).getD TermInfo.default

/-- Pair each entry's key with its ordinal, counting from `i`. -/
def withOrds : Nat → List (Key × TermInfo) → List (Key × Nat)
  | _, [] => []
  | i, e :: rest => (e.1, i) :: withOrds (i + 1) rest

/-- The full ascending (key, ordinal) enumeration of a dictionary. -/
def TermDictionary.keyOrds (d : TermDictionary) : List (Key × Nat) :=
  withOrds 0 d.entries

/-- Modelled from the spec: the fst crate's `StreamBuilder`, which
accumulates an optional lower and an optional upper bound; each of
`ge`, `gt`, `le`, `lt` replaces the bound on its side. -/
structure StreamBuilder where
  lower : Bound
  upper : Bound
deriving DecidableEq

/-- A fresh stream builder with no bounds set. -/
def StreamBuilder.new : StreamBuilder := ⟨Bound.unbounded, Bound.unbounded⟩

/-- Set an inclusive lower bound. -/
def StreamBuilder.ge (sb : StreamBuilder) (bound : Key) : StreamBuilder :=
  { sb with lower := Bound.included bound }

/-- Set an exclusive lower bound. -/
def StreamBuilder.gt (sb : StreamBuilder) (bound : Key) : StreamBuilder :=
  { sb with lower := Bound.excluded bound }

/-- Set an inclusive upper bound. -/
def StreamBuilder.le (sb : StreamBuilder) (bound : Key) : StreamBuilder :=
  { sb with upper := Bound.included bound }

/-- Set an exclusive upper bound. -/
def StreamBuilder.lt (sb : StreamBuilder) (bound : Key) : StreamBuilder :=
  { sb with upper := Bound.excluded bound }

/-- Modelled from the spec: the range-constrained ascending enumeration
produced by the dictionary: the (key, ordinal) pairs whose key satisfies
both bounds, in dictionary order. -/
def rangeStream (d : TermDictionary) (sb : StreamBuilder) : List (Key × Nat) :=
  d.keyOrds.filter (fun p => lowerOk sb.lower p.1 && upperOk sb.upper p.1)

/-- `TermStreamerBuilder`: helper object defining a range of terms to be
streamed (mirrors the Rust struct: a dictionary reference plus the
underlying fst stream builder). -/
structure TermStreamerBuilder where
  fst_map : TermDictionary
  stream_builder : StreamBuilder
deriving DecidableEq

/-- `TermStreamerBuilder::new`. -/
def TermStreamerBuilder.new (fst_map : TermDictionary) (stream_builder : StreamBuilder) :
    TermStreamerBuilder :=
  ⟨fst_map, stream_builder⟩

/-- `TermStreamerBuilder::ge`: limit the range to terms greater or equal
to the bound. -/
def TermStreamerBuilder.ge (s : TermStreamerBuilder) (bound : Key) : TermStreamerBuilder :=
  { s with stream_builder := s.stream_builder.ge bound }

/-- `TermStreamerBuilder::gt`: limit the range to terms strictly greater
than the bound. -/
def TermStreamerBuilder.gt (s : TermStreamerBuilder) (bound : Key) : TermStreamerBuilder :=
  { s with stream_builder := s.stream_builder.gt bound }

/-- `TermStreamerBuilder::le`: limit the range to terms lesser or equal to
the bound. -/
def TermStreamerBuilder.le (s : TermStreamerBuilder) (bound : Key) : TermStreamerBuilder :=
  { s with stream_builder := s.stream_builder.le bound }

/-- `TermStreamerBuilder::lt`: limit the range to terms strictly lesser
than the bound. -/
def TermStreamerBuilder.lt (s : TermStreamerBuilder) (bound : Key) : TermStreamerBuilder :=
  { s with stream_builder := s.stream_builder.lt bound }

/-- `TermStreamer`: a cursor over a range of terms of a segment.  The fst
stream of pending elements is embedded as the list of (key, ordinal)
pairs not yet consumed. -/
structure TermStreamer where
  fst_map : TermDictionary
  stream : List (Key × Nat)
  term_ord : Nat
  current_key : Key
  current_value : TermInfo
deriving DecidableEq

/-- `TermStreamerBuilder::into_stream`: creates the stream corresponding
to the configured range, positioned before its first element
(`term_ord = 0`, empty key, default value). -/
def TermStreamerBuilder.into_stream (s : TermStreamerBuilder) : TermStreamer :=
  { fst_map := s.fst_map
    stream := rangeStream s.fst_map s.stream_builder
    term_ord := 0
    current_key := []
    current_value := TermInfo.default }

/-- `TermStreamer::advance`: pulls the next (key, ordinal) pair if one
exists, overwriting the cached key, ordinal and metadata and returning
true; otherwise returns false leaving all cached fields unchanged. -/
def TermStreamer.advance (s : TermStreamer) : Bool × TermStreamer :=
  match s.stream with
  | (term, term_ord) :: rest =>
    (true,
      { s with
        stream := rest
        current_key := term
        term_ord := term_ord
        current_value := s.fst_map.term_info_from_ord term_ord })
  | [] => (false, s)

/-- `TermStreamer::key`: the cached key buffer. -/
def TermStreamer.key (s : TermStreamer) : Key := s.current_key

/-- `TermStreamer::value`: the cached metadata. -/
def TermStreamer.value (s : TermStreamer) : TermInfo := s.current_value

/-- `TermStreamer::next`: advance, and if that returned true, the pair
(key(), value()) read from the advanced cursor. -/
def TermStreamer.next (s : TermStreamer) : Option (Key × TermInfo) × TermStreamer :=
  match s.advance with
  | (true, s1) => (some (s1.key, s1.value), s1)
  | (false, s1) => (none, s1)

/-- The cursor after `n` calls to `advance` (discarding the booleans). -/
def advanceN (s : TermStreamer) : Nat → TermStreamer
  | 0 => s
  | n + 1 => ((advanceN s n).advance).2

/-- The observation trace of `n` advance calls: for each call, the
returned boolean together with key(), term_ord() and value() read right
after it. -/
def trace (s : TermStreamer) : Nat → List (Bool × Key × Nat × TermInfo)
  | 0 => []
  | n + 1 =>
    let r := s.advance
    (r.1, (r.2).key, (r.2).term_ord, (r.2).value) :: trace r.2 n

/-! ### Concrete demo dictionary (spec section 8, scenario entries) -/

/-- The bytes of "apple". -/
def appleKey : Key := [97, 112, 112, 108, 101]

/-- The bytes of "banana". -/
def bananaKey : Key := [98, 97, 110, 97, 110, 97]

/-- The bytes of "cherry". -/
def cherryKey : Key := [99, 104, 101, 114, 114, 121]

/-- The bytes of "date". -/
def dateKey : Key := [100, 97, 116, 101]

/-- The spec's scenario dictionary: apple, banana, cherry, date at
ordinals 0, 1, 2, 3, with distinct metadata records. -/
def demoDict : TermDictionary :=
  ⟨[(appleKey, ⟨10⟩), (bananaKey, ⟨11⟩), (cherryKey, ⟨12⟩), (dateKey, ⟨13⟩)]⟩

/-- An unbounded cursor over the demo dictionary. -/
def uS0 : TermStreamer :=
  (TermStreamerBuilder.new demoDict StreamBuilder.new).into_stream

/-- The unbounded demo cursor after one advance. -/
def uS1 : TermStreamer := (uS0.advance).2

/-- The unbounded demo cursor after two advances. -/
def uS2 : TermStreamer := (uS1.advance).2

/-- The scenario builder `ge("banana").le("cherry")` over the demo
dictionary. -/
def scBld : TermStreamerBuilder :=
  ((TermStreamerBuilder.new demoDict StreamBuilder.new).ge bananaKey).le cherryKey

/-- The scenario cursor, before any advance. -/
def sc0 : TermStreamer := scBld.into_stream

/-- The scenario cursor after one advance. -/
def sc1 : TermStreamer := (sc0.advance).2

/-- The scenario cursor after two advances. -/
def sc2 : TermStreamer := (sc1.advance).2

/-- The scenario cursor after three advances. -/
def sc3 : TermStreamer := (sc2.advance).2

/-- A builder over the demo dictionary whose lower bound exceeds its
upper bound. -/
def emptyBld : TermStreamerBuilder :=
  ((TermStreamerBuilder.new demoDict StreamBuilder.new).ge cherryKey).lt bananaKey

/-! ### Basic lemmas about `advance` -/

/-- A false-returning `advance` leaves the cursor completely unchanged. -/
theorem advance_false_state (s : TermStreamer) (h : (s.advance).1 = false) :
    (s.advance).2 = s := by
  rcases s with ⟨d, st, o, k, v⟩
  cases st with
  | nil => rfl
  | cons p rest =>
    exfalso
    rcases p with ⟨pk, po⟩
    simp [TermStreamer.advance] at h

/-- A true-returning `advance` consumes the head of the pending stream and
caches its key, ordinal, and the metadata looked up at that ordinal. -/
theorem advance_true_state (s s1 : TermStreamer) (h : s.advance = (true, s1)) :
    ∃ p rest, s.stream = p :: rest ∧
      s1 = { s with
              stream := rest
              current_key := p.1
              term_ord := p.2
              current_value := s.fst_map.term_info_from_ord p.2 } := by
  rcases s with ⟨d, st, o, k, v⟩
  cases st with
  | nil => simp [TermStreamer.advance] at h
  | cons p rest =>
    rcases p with ⟨pk, po⟩
    refine ⟨(pk, po), rest, rfl, ?_⟩
    simp [TermStreamer.advance] at h
    exact h.symm

/-- Every ordinal in `withOrds i l` is at least `i`. -/
theorem withOrds_ord_ge (i : Nat) (l : List (Key × TermInfo)) :
    ∀ p ∈ withOrds i l, i ≤ p.2 := by
  induction l generalizing i with
  | nil => intro p hp; simp [withOrds] at hp
  | cons e rest ih =>
    intro p hp
    simp only [withOrds, List.mem_cons] at hp
    rcases hp with hp | hp
    · subst hp; exact Nat.le_refl i
    · exact Nat.le_of_succ_le (ih (i + 1) p hp)

/-- Every key in `withOrds i l` is a key of `l`. -/
theorem withOrds_key_mem (i : Nat) (l : List (Key × TermInfo)) :
    ∀ p ∈ withOrds i l, p.1 ∈ l.map Prod.fst := by
  induction l generalizing i with
  | nil => intro p hp; simp [withOrds] at hp
  | cons e rest ih =>
    intro p hp
    simp only [withOrds, List.mem_cons] at hp
    rcases hp with hp | hp
    · subst hp; simp
    · simp only [List.map_cons, List.mem_cons]
      exact Or.inr (ih (i + 1) p hp)

/-- When the keys of `l` are pairwise strictly ascending, so is
`withOrds i l`, in key and in ordinal simultaneously. -/
theorem withOrds_pairwise (i : Nat) (l : List (Key × TermInfo))
    (h : (l.map Prod.fst).Pairwise (fun a b => lexLt a b = true)) :
    (withOrds i l).Pairwise (fun p q => lexLt p.1 q.1 = true ∧ p.2 < q.2) := by
  induction l generalizing i with
  | nil => simp [withOrds]
  | cons e rest ih =>
    simp only [List.map_cons, List.pairwise_cons] at h
    refine List.Pairwise.cons ?_ (ih (i + 1) h.2)
    intro q hq
    constructor
    · exact h.1 q.1 (withOrds_key_mem (i + 1) rest q hq)
    · exact Nat.lt_of_succ_le (withOrds_ord_ge (i + 1) rest q hq)

/-- The pending stream of a just-created cursor is pairwise ascending in
key and ordinal whenever the dictionary's keys are sorted. -/
theorem rangeStream_pairwise (d : TermDictionary) (sb : StreamBuilder)
    (h : (d.entries.map Prod.fst).Pairwise (fun a b => lexLt a b = true)) :
    (rangeStream d sb).Pairwise (fun p q => lexLt p.1 q.1 = true ∧ p.2 < q.2) :=
  List.Pairwise.filter _ (withOrds_pairwise 0 d.entries h)

/-- `advance` preserves pairwise ascending pending streams. -/
theorem advance_preserves_pairwise (s : TermStreamer)
    (h : s.stream.Pairwise (fun p q => lexLt p.1 q.1 = true ∧ p.2 < q.2)) :
    ((s.advance).2).stream.Pairwise (fun p q => lexLt p.1 q.1 = true ∧ p.2 < q.2) := by
  rcases s with ⟨d, st, o, k, v⟩
  cases st with
  | nil => exact h
  | cons p rest =>
    rcases p with ⟨pk, po⟩
    simp only [TermStreamer.advance]
    exact (List.pairwise_cons.mp h).2

/-- The pending stream after any number of advances from a fresh cursor is
pairwise ascending, given a sorted dictionary. -/
theorem advanceN_pairwise (bld : TermStreamerBuilder) (n : Nat)
    (h : (bld.fst_map.entries.map Prod.fst).Pairwise (fun a b => lexLt a b = true)) :
    ((advanceN bld.into_stream n).stream).Pairwise
      (fun p q => lexLt p.1 q.1 = true ∧ p.2 < q.2) := by
  induction n with
  | zero => exact rangeStream_pairwise bld.fst_map bld.stream_builder h
  | succ n ih => exact advance_preserves_pairwise _ ih

/-- Advancing only removes pending elements, never adds any. -/
theorem advance_stream_subset (s : TermStreamer) :
    ∀ p ∈ ((s.advance).2).stream, p ∈ s.stream := by
  rcases s with ⟨d, st, o, k, v⟩
  cases st with
  | nil => intro p hp; exact hp
  | cons a b =>
    rcases a with ⟨ak, ao⟩
    intro p hp
    simp only [TermStreamer.advance] at hp
    exact List.mem_cons_of_mem _ hp

/-- Every pending element of a cursor obtained by advances from a fresh
cursor satisfies the builder's bounds. -/
theorem advanceN_stream_in_bounds (bld : TermStreamerBuilder) (n : Nat) :
    ∀ p ∈ (advanceN bld.into_stream n).stream,
      (lowerOk bld.stream_builder.lower p.1 && upperOk bld.stream_builder.upper p.1) = true := by
  induction n with
  | zero =>
    intro p hp
    exact (List.mem_filter.mp hp).2
  | succ n ih =>
    intro p hp
    exact ih p (advance_stream_subset _ p hp)

/-! ### Claim theorems -/

/-- C1: for every cursor produced by `into_stream` (over a dictionary with
strictly ascending keys, as the spec's dictionary contract guarantees) and
for every pair of consecutive `advance()` calls that both return true, the
key cached by the second call is strictly greater in byte-lexicographic
order than the key cached by the first, and the ordinal cached by the
second is strictly greater than the ordinal cached by the first. -/
theorem claim_C1_advance_strictly_increasing
    (bld : TermStreamerBuilder) (n : Nat) (s1 s2 : TermStreamer)
    (hsorted : (bld.fst_map.entries.map Prod.fst).Pairwise (fun a b => lexLt a b = true))
    (h1 : (advanceN bld.into_stream n).advance = (true, s1))
    (h2 : s1.advance = (true, s2)) :
    lexLt s1.key s2.key = true ∧ s1.term_ord < s2.term_ord := by
  have hpw := advanceN_pairwise bld n hsorted
  obtain ⟨p, rest, hst, hs1⟩ := advance_true_state _ _ h1
  subst hs1
  obtain ⟨q, rest2, hst2, hs2⟩ := advance_true_state _ _ h2
  subst hs2
  simp only at hst2
  rw [hst, hst2] at hpw
  have hrel := (List.pairwise_cons.mp hpw).1 q (List.mem_cons_self q rest2)
  exact ⟨hrel.1, hrel.2⟩

/-- Witness for C1 at the unbounded demo cursor: the first two advances
yield strictly increasing key and ordinal. -/
theorem claim_C1_witness :
    lexLt uS1.key uS2.key = true ∧ uS1.term_ord < uS2.term_ord :=
  claim_C1_advance_strictly_increasing
    (TermStreamerBuilder.new demoDict StreamBuilder.new) 0 uS1 uS2
    (by decide) (by decide) (by decide)

/-- C2: every key produced by a cursor lies within the configured bounds:
an inclusive lower bound `b` (set by a final `ge(b)`) forces `b ≤ key`, an
exclusive lower bound (`gt(b)`) forces `b < key`, and the upper-side
bounds (`le(b)`, `lt(b)`) bound the key from above, all in
byte-lexicographic order. -/
theorem claim_C2_keys_within_bounds
    (bld : TermStreamerBuilder) (n : Nat) (s1 : TermStreamer) (b : Key)
    (h : (advanceN bld.into_stream n).advance = (true, s1)) :
    (bld.stream_builder.lower = Bound.included b → lexLe b s1.key = true) ∧
    (bld.stream_builder.lower = Bound.excluded b → lexLt b s1.key = true) ∧
    (bld.stream_builder.upper = Bound.included b → lexLe s1.key b = true) ∧
    (bld.stream_builder.upper = Bound.excluded b → lexLt s1.key b = true) := by
  obtain ⟨p, rest, hst, hs1⟩ := advance_true_state _ _ h
  have hmem : p ∈ (advanceN bld.into_stream n).stream := by
    rw [hst]; exact List.mem_cons_self p rest
  have hb := advanceN_stream_in_bounds bld n p hmem
  rw [Bool.and_eq_true] at hb
  subst hs1
  refine ⟨fun hl => ?_, fun hl => ?_, fun hu => ?_, fun hu => ?_⟩
  · have := hb.1; rw [hl] at this; exact this
  · have := hb.1; rw [hl] at this; exact this
  · have := hb.2; rw [hu] at this; exact this
  · have := hb.2; rw [hu] at this; exact this

/-- Witness for C2 at the scenario cursor `ge("banana").le("cherry")`:
the first produced key is bounded below by "banana" and above by
"cherry". -/
theorem claim_C2_witness :
    lexLe bananaKey sc1.key = true ∧ lexLe sc1.key cherryKey = true :=
  ⟨(claim_C2_keys_within_bounds scBld 0 sc1 bananaKey (by decide)).1 (by decide),
   (claim_C2_keys_within_bounds scBld 0 sc1 cherryKey (by decide)).2.2.1 (by decide)⟩

/-- C4: whenever an `advance()` call returns false, the cached key,
ordinal and metadata are left unchanged: `key()`, `term_ord()` and
`value()` afterwards return exactly what they returned before the
call. -/
theorem claim_C4_false_advance_frame (s : TermStreamer)
    (h : ((s.advance).1) = false) :
    ((s.advance).2).key = s.key ∧
    ((s.advance).2).term_ord = s.term_ord ∧
    ((s.advance).2).value = s.value := by
  rw [advance_false_state s h]
  exact ⟨rfl, rfl, rfl⟩

/-- Witness for C4 at the exhausted scenario cursor: the third advance
returns false and preserves key, ordinal and value. -/
theorem claim_C4_witness :
    ((sc2.advance).2).key = sc2.key ∧
    ((sc2.advance).2).term_ord = sc2.term_ord ∧
    ((sc2.advance).2).value = sc2.value :=
  claim_C4_false_advance_frame sc2 (by decide)

/-- A cursor whose false-returning advances are all we have seen is still
the fresh cursor: a false advance changes nothing. -/
theorem advanceN_all_false (s0 : TermStreamer) (n : Nat)
    (h : ∀ m, m < n → ((advanceN s0 m).advance).1 = false) :
    advanceN s0 n = s0 := by
  induction n with
  | zero => rfl
  | succ n ih =>
    have hn : advanceN s0 n = s0 := ih (fun m hm => h m (Nat.lt_succ_of_lt hm))
    show ((advanceN s0 n).advance).2 = s0
    rw [hn]
    exact advance_false_state s0 (hn ▸ h n (Nat.lt_succ_self n))

/-- C3: on a cursor on which `advance()` has never returned true
(including before any call), `key()` returns the empty byte sequence,
`value()` returns the default `TermInfo`, and `term_ord()` returns the
sentinel 0; each of these is an ordinary total function call. -/
theorem claim_C3_uninitialized_defaults (bld : TermStreamerBuilder) (n : Nat)
    (h : ∀ m, m < n → ((advanceN bld.into_stream m).advance).1 = false) :
    (advanceN bld.into_stream n).key = [] ∧
    (advanceN bld.into_stream n).value = TermInfo.default ∧
    (advanceN bld.into_stream n).term_ord = 0 := by
  rw [advanceN_all_false bld.into_stream n h]
  exact ⟨rfl, rfl, rfl⟩

/-- Witness for C3 at the empty-range builder after two false advances,
and also at zero advances (before any call). -/
theorem claim_C3_witness :
    ((advanceN emptyBld.into_stream 2).key = [] ∧
      (advanceN emptyBld.into_stream 2).value = TermInfo.default ∧
      (advanceN emptyBld.into_stream 2).term_ord = 0) ∧
    ((advanceN sc0 0).key = [] ∧
      (advanceN sc0 0).value = TermInfo.default ∧
      (advanceN sc0 0).term_ord = 0) :=
  ⟨claim_C3_uninitialized_defaults emptyBld 2 (by decide),
   claim_C3_uninitialized_defaults scBld 0 (by decide)⟩

/-- A cursor with an empty pending stream advances to itself. -/
theorem advance_empty (s : TermStreamer) (h : s.stream = []) :
    s.advance = (false, s) := by
  rcases s with ⟨d, st, o, k, v⟩
  cases st with
  | nil => rfl
  | cons a b => simp at h

/-- Advancing a cursor with an empty pending stream any number of times
leaves it unchanged. -/
theorem advanceN_empty (s : TermStreamer) (h : s.stream = []) (n : Nat) :
    advanceN s n = s := by
  induction n with
  | zero => rfl
  | succ n ih =>
    show ((advanceN s n).advance).2 = s
    rw [ih, advance_empty s h]

/-- C5: when the configured bounds admit no key of the dictionary
(including a lower bound exceeding the upper bound), `into_stream()`
still yields a cursor, its first `advance()` returns false, and every
subsequent `advance()` also returns false: no element is ever
produced. -/
theorem claim_C5_empty_range (bld : TermStreamerBuilder)
    (h : ∀ k ∈ bld.fst_map.entries.map Prod.fst,
      (lowerOk bld.stream_builder.lower k && upperOk bld.stream_builder.upper k) = false) :
    ∀ n, ((advanceN bld.into_stream n).advance).1 = false := by
  intro n
  have hnil : (bld.into_stream).stream = [] := by
    show rangeStream bld.fst_map bld.stream_builder = []
    refine List.filter_eq_nil_iff.mpr ?_
    intro p hp
    rw [h p.1 (withOrds_key_mem 0 bld.fst_map.entries p hp)]
    exact Bool.false_ne_true
  rw [advanceN_empty bld.into_stream hnil n, advance_empty bld.into_stream hnil]

/-- Witness for C5: the demo builder whose lower bound "cherry" exceeds
its upper bound "banana" never produces an element (checked at the first
and at a later advance). -/
theorem claim_C5_witness :
    ((advanceN emptyBld.into_stream 0).advance).1 = false ∧
    ((advanceN emptyBld.into_stream 5).advance).1 = false :=
  ⟨claim_C5_empty_range emptyBld (by decide) 0,
   claim_C5_empty_range emptyBld (by decide) 5⟩

/-- C6: `next()` is the combination of `advance()` and the accessors: it
returns `some (key(), value())` read right after the advance exactly when
that advance returns true, returns `none` exactly when it returns false,
and leaves the cursor in the very state the advance leaves it in. -/
theorem claim_C6_next_equiv_advance (s : TermStreamer) :
    s.next =
      (if (s.advance).1 = true
        then some (((s.advance).2).key, ((s.advance).2).value)
        else none,
       (s.advance).2) := by
  rcases s with ⟨d, st, o, k, v⟩
  cases st with
  | nil => rfl
  | cons a b =>
    rcases a with ⟨ak, ao⟩
    rfl

/-- C7: on each side the last bound-setting call wins: a second
lower-side call (`ge`/`gt`) yields the same builder as if the first had
never happened, and likewise on the upper side; and the stream of a
two-sided builder is exactly the intersection of the streams of the two
corresponding one-sided builders. -/
theorem claim_C7_last_call_wins (bld : TermStreamerBuilder) (b1 b2 : Key) :
    ((bld.ge b1).ge b2 = bld.ge b2 ∧ (bld.ge b1).gt b2 = bld.gt b2 ∧
     (bld.gt b1).ge b2 = bld.ge b2 ∧ (bld.gt b1).gt b2 = bld.gt b2 ∧
     (bld.le b1).le b2 = bld.le b2 ∧ (bld.le b1).lt b2 = bld.lt b2 ∧
     (bld.lt b1).le b2 = bld.le b2 ∧ (bld.lt b1).lt b2 = bld.lt b2) ∧
    (∀ p, p ∈ (bld.into_stream).stream ↔
      (p ∈ ((TermStreamerBuilder.new bld.fst_map
              ⟨bld.stream_builder.lower, Bound.unbounded⟩).into_stream).stream ∧
       p ∈ ((TermStreamerBuilder.new bld.fst_map
              ⟨Bound.unbounded, bld.stream_builder.upper⟩).into_stream).stream)) := by
  constructor
  · exact ⟨rfl, rfl, rfl, rfl, rfl, rfl, rfl, rfl⟩
  · intro p
    show p ∈ rangeStream bld.fst_map bld.stream_builder ↔ _
    simp only [TermStreamerBuilder.into_stream, TermStreamerBuilder.new, rangeStream,
      List.mem_filter, upperOk, lowerOk, Bool.and_true, Bool.true_and, Bool.and_eq_true]
    tauto

/-- C8: over the dictionary apple→0, banana→1, cherry→2, date→3, the
cursor built by `ge("banana").le("cherry").into_stream()` yields exactly
(banana, 1) then (cherry, 2), after which `advance()` returns false while
`key()` still returns "cherry" and `term_ord()` still returns 2. -/
theorem claim_C8_scenario :
    (sc0.advance).1 = true ∧ sc1.key = bananaKey ∧ sc1.term_ord = 1 ∧
    (sc1.advance).1 = true ∧ sc2.key = cherryKey ∧ sc2.term_ord = 2 ∧
    (sc2.advance).1 = false ∧ sc3.key = cherryKey ∧ sc3.term_ord = 2 := by
  decide

/-- The cached metadata equals the dictionary lookup at the cached
ordinal; this is established by every true-returning advance. -/
theorem advance_true_value_consistent (s s1 : TermStreamer)
    (h : s.advance = (true, s1)) :
    s1.value = s1.fst_map.term_info_from_ord s1.term_ord := by
  obtain ⟨p, rest, hst, hs1⟩ := advance_true_state _ _ h
  subst hs1
  rfl

/-- The value-ordinal consistency is preserved by any advance. -/
theorem advance_preserves_value_consistent (s : TermStreamer)
    (h : s.value = s.fst_map.term_info_from_ord s.term_ord) :
    ((s.advance).2).value =
      ((s.advance).2).fst_map.term_info_from_ord (((s.advance).2).term_ord) := by
  rcases s with ⟨d, st, o, k, v⟩
  cases st with
  | nil => exact h
  | cons a b =>
    rcases a with ⟨ak, ao⟩
    rfl

/-- C9: after every true-returning `advance()`, the cached metadata equals
the dictionary's lookup at the cached ordinal — `value()` equals
`term_info_from_ord(term_ord())` — and this consistency persists through
every subsequent operation. -/
theorem claim_C9_value_ord_consistency
    (bld : TermStreamerBuilder) (n m : Nat) (s1 : TermStreamer)
    (h : (advanceN bld.into_stream n).advance = (true, s1)) :
    (advanceN s1 m).value =
      (advanceN s1 m).fst_map.term_info_from_ord ((advanceN s1 m).term_ord) := by
  induction m with
  | zero => exact advance_true_value_consistent _ s1 h
  | succ m ih => exact advance_preserves_value_consistent _ ih

/-- Witness for C9 at the scenario cursor: after the first true advance
and one further advance, the cached value is the lookup at the cached
ordinal. -/
theorem claim_C9_witness :
    (advanceN sc1 1).value =
      (advanceN sc1 1).fst_map.term_info_from_ord ((advanceN sc1 1).term_ord) :=
  claim_C9_value_ord_consistency scBld 0 1 sc1 (by decide)

/-- C10: the cursor is deterministic: two cursors built from builders
holding the same dictionary and the same configured bounds produce
identical traces of `advance()` results and `key()`, `term_ord()`,
`value()` observations, however many steps are taken. -/
theorem claim_C10_deterministic (b1 b2 : TermStreamerBuilder) (n : Nat)
    (hd : b1.fst_map = b2.fst_map)
    (hlo : b1.stream_builder.lower = b2.stream_builder.lower)
    (hhi : b1.stream_builder.upper = b2.stream_builder.upper) :
    trace b1.into_stream n = trace b2.into_stream n := by
  rcases b1 with ⟨d1, ⟨lo1, hi1⟩⟩
  rcases b2 with ⟨d2, ⟨lo2, hi2⟩⟩
  simp only at hd hlo hhi
  rw [hd, hlo, hhi]

/-- Witness for C10: two differently built but identically configured
builders (one of which had its lower bound overwritten) give the same
trace for three steps. -/
theorem claim_C10_witness :
    trace ((TermStreamerBuilder.new demoDict StreamBuilder.new).ge bananaKey).into_stream 3 =
      trace (((TermStreamerBuilder.new demoDict StreamBuilder.new).ge appleKey).ge
        bananaKey).into_stream 3 :=
  claim_C10_deterministic
    ((TermStreamerBuilder.new demoDict StreamBuilder.new).ge bananaKey)
    (((TermStreamerBuilder.new demoDict StreamBuilder.new).ge appleKey).ge bananaKey)
    3 (by decide) (by decide) (by decide)

end TantivyStreamer
